import Mathlib

/-!
Shallow embedding of `src/app.js`: an Express web application with signup,
login, session-based authentication, a members-only page and an admin panel
for promoting/demoting users.

External collaborators (bcrypt, Joi's email-format check) are abstracted as
an `Ext` record of pure functions.  The MongoDB user collection is a list of
`User` records (`findOne` = first match, `insertOne` = append, `updateOne` =
update first match).  The express-session store is an association list from
numeric session identifiers to payloads; fresh identifiers come from a
counter, mirroring the fact that express-session never reuses the identifier
of a destroyed session.  Each route handler is a pure function from the
system state and the request data to a result holding the new state, the
HTTP response, and whether a server-side error log line was emitted.
-/

namespace App

/-- External dependencies of `app.js`: bcrypt's `hash` and `compare`, and
Joi's email-format test (the internals of these libraries are out of scope). -/
structure Ext where
  bcryptHash : String → String
  bcryptCompare : String → String → Bool
  emailOk : String → Bool

/-- A document of the `1537users` collection, as inserted by `/signupSubmit`. -/
structure User where
  name : String
  email : String
  passwordHash : String
  admin : Bool
deriving DecidableEq, Repr

/-- The `req.session.user` object set by `loginUser`. -/
structure Payload where
  name : String
  email : String
  admin : Bool
deriving DecidableEq, Repr

/-- The server-side state: the user collection, the session store
(keyed by session identifier), and the next fresh session identifier. -/
structure SysState where
  users : List User
  sessions : List (Nat × Payload)
  nextSid : Nat
deriving DecidableEq, Repr

/-- The HTTP response produced by a handler.  `res.render` without an
explicit status is status 200; `res.redirect` carries its target path. -/
inductive Response where
  | redirect (path : String)
  | render (view : String) (errorText : Option String) (status : Nat)
  | send (body : String) (status : Nat)
deriving DecidableEq, Repr

/-- Result of one handler invocation: the state after the handler, the
response sent, and whether a `console.error` log line was emitted. -/
structure HResult where
  state : SysState
  response : Response
  logged : Bool
deriving DecidableEq, Repr

/-! ### Joi validation (`schema.validate` in the two submit handlers) -/

/-- Joi's `alphanum()`: only ASCII letters and digits. -/
def isAlphanum (s : String) : Bool :=
  s.data.all fun c => c.isAlpha || c.isDigit

/-- `Joi.string().alphanum().max(20).required()` applied to the `name` field
(`undefined` fails `required()`; Joi strings may not be empty). -/
def validateName (name : Option String) : Option String :=
  match name with
  | none => some "name is required"
  | some n =>
    if n.length = 0 then some "name is not allowed to be empty"
    else if !isAlphanum n then some "name must only contain alpha-numeric characters"
    else if n.length > 20 then some "name length must be less than or equal to 20 characters long"
    else none

/-- `Joi.string().email().max(30).required()` applied to the `email` field. -/
def validateEmail (ext : Ext) (email : Option String) : Option String :=
  match email with
  | none => some "email is required"
  | some e =>
    if e.length = 0 then some "email is not allowed to be empty"
    else if !ext.emailOk e then some "email must be a valid email"
    else if e.length > 30 then some "email length must be less than or equal to 30 characters long"
    else none

/-- `Joi.string().max(20).required()` applied to the `password` field. -/
def validatePassword (password : Option String) : Option String :=
  match password with
  | none => some "password is required"
  | some p =>
    if p.length = 0 then some "password is not allowed to be empty"
    else if p.length > 20 then some "password length must be less than or equal to 20 characters long"
    else none

/-- The signup schema of `POST /signupSubmit`: first validation error wins
(Joi aborts early), field order `name`, `email`, `password`. -/
def validateSignup (ext : Ext) (name email password : Option String) :
    Except String (String × String × String) :=
  match validateName name with
  | some err => .error err
  | none =>
    match validateEmail ext email with
    | some err => .error err
    | none =>
      match validatePassword password with
      | some err => .error err
      | none => .ok (name.getD "", email.getD "", password.getD "")

/-- The login schema of `POST /loginSubmit`: `email` then `password`. -/
def validateLogin (ext : Ext) (email password : Option String) :
    Except String (String × String) :=
  match validateEmail ext email with
  | some err => .error err
  | none =>
    match validatePassword password with
    | some err => .error err
    | none => .ok (email.getD "", password.getD "")

/-! ### MongoDB collection operations on `1537users` -/

/-- `collection("1537users").findOne({ email })`: first document whose
`email` field matches. -/
def findOne (users : List User) (email : String) : Option User :=
  users.find? fun u => u.email = email

/-- `collection("1537users").updateOne({ email }, { $set: { admin: flag } })`:
update the first matching document only. -/
def updateOneSetAdmin : List User → String → Bool → List User
  | [], _, _ => []
  | u :: rest, email, flag =>
    if u.email = email then { u with admin := flag } :: rest
    else u :: updateOneSetAdmin rest email flag

/-! ### Session store (connect-mongo via express-session) -/

/-- Store lookup by session identifier. -/
def getSession (sessions : List (Nat × Payload)) (sid : Nat) : Option Payload :=
  (sessions.find? fun pr => pr.1 = sid).map Prod.snd

/-- Replace the payload stored under a live session identifier. -/
def updateSession (sessions : List (Nat × Payload)) (sid : Nat) (p : Payload) :
    List (Nat × Payload) :=
  sessions.map fun pr => if pr.1 = sid then (sid, p) else pr

/-- `req.session.destroy()`: remove the session record for `sid`. -/
def removeSession (sessions : List (Nat × Payload)) (sid : Nat) :
    List (Nat × Payload) :=
  sessions.filter fun pr => pr.1 ≠ sid

/-- The `req.session.user` visible to a request: the payload stored under
the presented cookie's session identifier, if any.  A request with no cookie,
an unknown identifier, or a destroyed session sees `undefined`. -/
def reqUser (st : SysState) (presented : Option Nat) : Option Payload :=
  presented.bind (getSession st.sessions)

/-- `loginUser(req, user)`: the payload copies `name`, `email` and
`admin ?? false` from the given user object. -/
def mkPayload (name email : String) (admin : Option Bool) : Payload :=
  { name := name, email := email, admin := admin.getD false }

/-- Setting `req.session.user`: if the request rides a live session, its
payload is replaced in place; otherwise express-session saves the session
under a freshly generated identifier (never a previously used one). -/
def establishSession (st : SysState) (presented : Option Nat) (p : Payload) :
    SysState :=
  match presented with
  | some sid =>
    if (getSession st.sessions sid).isSome then
      { st with sessions := updateSession st.sessions sid p }
    else
      { st with sessions := (st.nextSid, p) :: st.sessions, nextSid := st.nextSid + 1 }
  | none =>
    { st with sessions := (st.nextSid, p) :: st.sessions, nextSid := st.nextSid + 1 }

/-! ### Route handlers -/

/-- `GET /`. -/
def homeGet (st : SysState) (_presented : Option Nat) : HResult :=
  ⟨st, .render "index" none 200, false⟩

/-- `GET /signup`. -/
def signupGet (st : SysState) (_presented : Option Nat) : HResult :=
  ⟨st, .render "signup" none 200, false⟩

/-- `GET /login`. -/
def loginGet (st : SysState) (_presented : Option Nat) : HResult :=
  ⟨st, .render "login" none 200, false⟩

/-- `POST /signupSubmit`.  `insertFails` models a persistence failure of the
`insertOne` call (its `.catch` branch). -/
def signupSubmit (ext : Ext) (st : SysState) (presented : Option Nat)
    (name email password : Option String) (insertFails : Bool) : HResult :=
  match validateSignup ext name email password with
  | .error err => ⟨st, .render "signupSubmit" (some err) 200, false⟩
  | .ok (n, e, p) =>
    match findOne st.users e with
    | some _ =>
      ⟨st, .render "signupSubmit" (some "User already exists with that email.") 200, false⟩
    | none =>
      let passwordHash := ext.bcryptHash p
      if insertFails then
        ⟨st, .send "Internal server error." 500, true⟩
      else
        let st1 := { st with
          users := st.users ++
            [{ name := n, email := e, passwordHash := passwordHash, admin := false }] }
        ⟨establishSession st1 presented (mkPayload n e none), .redirect "/members", false⟩

/-- `POST /loginSubmit`. -/
def loginSubmit (ext : Ext) (st : SysState) (presented : Option Nat)
    (email password : Option String) : HResult :=
  match validateLogin ext email password with
  | .error err => ⟨st, .render "loginSubmit" (some err) 200, false⟩
  | .ok (e, p) =>
    match findOne st.users e with
    | none => ⟨st, .render "loginSubmit" (some "Couldn't find user with that email.") 200, false⟩
    | some u =>
      if ext.bcryptCompare p u.passwordHash then
        ⟨establishSession st presented (mkPayload u.name u.email (some u.admin)),
          .redirect "/members", false⟩
      else
        ⟨st, .render "loginSubmit" (some "Incorrect password.") 200, false⟩

/-- `GET /members`, behind `authenticatedMiddleware`. -/
def membersGet (st : SysState) (presented : Option Nat) : HResult :=
  match reqUser st presented with
  | some _ => ⟨st, .render "members" none 200, false⟩
  | none => ⟨st, .redirect "/", false⟩

/-- `GET /logout`. -/
def logoutGet (st : SysState) (presented : Option Nat) : HResult :=
  match presented with
  | some sid => ⟨{ st with sessions := removeSession st.sessions sid }, .redirect "/", false⟩
  | none => ⟨st, .redirect "/", false⟩

/-- `adminMiddleware`: anonymous requests are redirected to `/login`;
authenticated non-admin requests get the 403 page; admin requests reach
the wrapped handler. -/
def adminGate (st : SysState) (presented : Option Nat)
    (handler : Payload → HResult) : HResult :=
  match reqUser st presented with
  | some p =>
    if p.admin then handler p
    else ⟨st, .render "403" none 403, false⟩
  | none => ⟨st, .redirect "/login", false⟩

/-- `GET /admin`, behind `adminMiddleware`. -/
def adminGet (st : SysState) (presented : Option Nat) : HResult :=
  adminGate st presented fun _ => ⟨st, .render "admin" none 200, false⟩

/-- `POST /admin/promoteUser/:email`.  The `updateOne` promise is not
awaited and has no `.catch`: the redirect is sent regardless, and a failing
update (`updateFails`) changes nothing and logs nothing. -/
def promoteUser (st : SysState) (presented : Option Nat) (email : String)
    (updateFails : Bool) : HResult :=
  adminGate st presented fun _ =>
    if updateFails then ⟨st, .redirect "/admin", false⟩
    else ⟨{ st with users := updateOneSetAdmin st.users email true }, .redirect "/admin", false⟩

/-- `POST /admin/demoteUser/:email`, same shape as promotion. -/
def demoteUser (st : SysState) (presented : Option Nat) (email : String)
    (updateFails : Bool) : HResult :=
  adminGate st presented fun _ =>
    if updateFails then ⟨st, .redirect "/admin", false⟩
    else ⟨{ st with users := updateOneSetAdmin st.users email false }, .redirect "/admin", false⟩

/-- The catch-all 404 handler. -/
def notFoundAny (st : SysState) (_presented : Option Nat) : HResult :=
  ⟨st, .render "404" none 404, false⟩

/-! ### Whole-system traces -/

/-- One incoming HTTP request, with the session identifier its cookie
presents (if any) and, for the fallible handlers, whether persistence fails. -/
inductive Event where
  | home (presented : Option Nat)
  | signupPage (presented : Option Nat)
  | loginPage (presented : Option Nat)
  | signup (presented : Option Nat) (name email password : Option String) (insertFails : Bool)
  | login (presented : Option Nat) (email password : Option String)
  | members (presented : Option Nat)
  | logout (presented : Option Nat)
  | adminList (presented : Option Nat)
  | promote (presented : Option Nat) (email : String) (updateFails : Bool)
  | demote (presented : Option Nat) (email : String) (updateFails : Bool)
  | other (presented : Option Nat)
deriving Repr

/-- Dispatch one request through the router. -/
def step (ext : Ext) (st : SysState) : Event → HResult
  | .home pr => homeGet st pr
  | .signupPage pr => signupGet st pr
  | .loginPage pr => loginGet st pr
  | .signup pr n e p f => signupSubmit ext st pr n e p f
  | .login pr e p => loginSubmit ext st pr e p
  | .members pr => membersGet st pr
  | .logout pr => logoutGet st pr
  | .adminList pr => adminGet st pr
  | .promote pr em f => promoteUser st pr em f
  | .demote pr em f => demoteUser st pr em f
  | .other pr => notFoundAny st pr

/-- Run a sequence of requests, keeping only the evolving state. -/
def run (ext : Ext) (st : SysState) (es : List Event) : SysState :=
  es.foldl (fun s e => (step ext s e).state) st

/-- Store well-formedness: every stored session identifier was generated
before the current fresh counter. -/
def wfSids (st : SysState) : Prop :=
  ∀ pr ∈ st.sessions, pr.1 < st.nextSid

/-- A retired session identifier: absent from the store and strictly below
the fresh counter, so no later request can ever revive it. -/
def retired (st : SysState) (sid : Nat) : Prop :=
  getSession st.sessions sid = none ∧ sid < st.nextSid

/-! ### Session-store lemmas -/

theorem getSession_eq_none (ss : List (Nat × Payload)) (sid : Nat) :
    getSession ss sid = none ↔ ∀ pr ∈ ss, pr.1 ≠ sid := by
  simp [getSession, List.find?_eq_none]

theorem getSession_cons_self (ss : List (Nat × Payload)) (sid : Nat) (p : Payload) :
    getSession ((sid, p) :: ss) sid = some p := by
  simp [getSession, List.find?_cons]

theorem getSession_cons_ne (ss : List (Nat × Payload)) (k sid : Nat) (p : Payload)
    (h : k ≠ sid) : getSession ((k, p) :: ss) sid = getSession ss sid := by
  simp [getSession, List.find?_cons, h]

theorem getSession_updateSession_of_none (ss : List (Nat × Payload)) (sid' : Nat)
    (p : Payload) (sid : Nat) (h : getSession ss sid = none) :
    getSession (updateSession ss sid' p) sid = none := by
  rw [getSession_eq_none] at h ⊢
  intro pr hpr
  rcases List.mem_map.1 hpr with ⟨q, hq, rfl⟩
  by_cases hq1 : q.1 = sid'
  · simp only [updateSession, hq1, if_pos]
    simpa [hq1] using h q hq
  · simpa [updateSession, hq1] using h q hq

theorem getSession_updateSession_self (ss : List (Nat × Payload)) (sid : Nat)
    (p : Payload) (h : (getSession ss sid).isSome) :
    getSession (updateSession ss sid p) sid = some p := by
  induction ss with
  | nil => simp [getSession] at h
  | cons a t ih =>
    by_cases ha : a.1 = sid
    · simp [updateSession, ha, getSession_cons_self]
    · rw [getSession_cons_ne t a.1 sid a.2 ha] at h
      have : updateSession (a :: t) sid p = a :: updateSession t sid p := by
        simp [updateSession, ha]
      rw [this, getSession_cons_ne _ a.1 sid a.2 ha]
      exact ih h

theorem getSession_removeSession_self (ss : List (Nat × Payload)) (sid : Nat) :
    getSession (removeSession ss sid) sid = none := by
  rw [getSession_eq_none]
  intro pr hpr
  simpa using (List.mem_filter.1 hpr).2

theorem getSession_removeSession_of_none (ss : List (Nat × Payload)) (sid' sid : Nat)
    (h : getSession ss sid = none) :
    getSession (removeSession ss sid') sid = none := by
  rw [getSession_eq_none] at h ⊢
  intro pr hpr
  exact h pr (List.mem_of_mem_filter hpr)

theorem getSession_some_lt (st : SysState) (sid : Nat) (pl : Payload)
    (hw : wfSids st) (hs : getSession st.sessions sid = some pl) : sid < st.nextSid := by
  unfold getSession at hs
  cases hq : st.sessions.find? fun pr => pr.1 = sid with
  | none => rw [hq] at hs; simp at hs
  | some q =>
    have hmem : q ∈ st.sessions := List.mem_of_find?_eq_some hq
    have hkey : q.1 = sid := by simpa using List.find?_some hq
    exact hkey ▸ hw q hmem

/-! ### Effect of each operation on state components -/

theorem establishSession_users (st : SysState) (pr : Option Nat) (p : Payload) :
    (establishSession st pr p).users = st.users := by
  unfold establishSession
  cases pr with
  | none => rfl
  | some sid => dsimp only; split <;> rfl

theorem establishSession_exists (st : SysState) (pr : Option Nat) (p : Payload) :
    ∃ sid, getSession (establishSession st pr p).sessions sid = some p := by
  unfold establishSession
  cases pr with
  | none => exact ⟨st.nextSid, getSession_cons_self _ _ _⟩
  | some sid =>
    dsimp only
    split
    · exact ⟨sid, getSession_updateSession_self _ _ _ (by assumption)⟩
    · exact ⟨st.nextSid, getSession_cons_self _ _ _⟩

theorem retired_establishSession (st : SysState) (pr : Option Nat) (p : Payload)
    (sid : Nat) (h : retired st sid) : retired (establishSession st pr p) sid := by
  obtain ⟨hn, hlt⟩ := h
  unfold establishSession
  cases pr with
  | none =>
    exact ⟨by rw [getSession_cons_ne _ _ _ _ (Nat.ne_of_gt hlt)]; exact hn,
      Nat.lt_succ_of_lt hlt⟩
  | some sid' =>
    dsimp only
    split
    · exact ⟨getSession_updateSession_of_none _ _ _ _ hn, hlt⟩
    · exact ⟨by rw [getSession_cons_ne _ _ _ _ (Nat.ne_of_gt hlt)]; exact hn,
        Nat.lt_succ_of_lt hlt⟩

theorem retired_of_eq (st st' : SysState) (sid : Nat)
    (h1 : st'.sessions = st.sessions) (h2 : st'.nextSid = st.nextSid)
    (h : retired st sid) : retired st' sid := by
  unfold retired at *
  rw [h1, h2]
  exact h

theorem membersGet_state (st : SysState) (pr : Option Nat) :
    (membersGet st pr).state = st := by
  unfold membersGet; split <;> rfl

theorem adminGet_state (st : SysState) (pr : Option Nat) :
    (adminGet st pr).state = st := by
  unfold adminGet adminGate; split <;> first | rfl | (split <;> rfl)

theorem promoteUser_state_sessions (st : SysState) (pr : Option Nat) (em : String)
    (f : Bool) : (promoteUser st pr em f).state.sessions = st.sessions := by
  unfold promoteUser adminGate
  split <;> first | rfl | (split <;> first | rfl | (split <;> rfl))

theorem promoteUser_state_nextSid (st : SysState) (pr : Option Nat) (em : String)
    (f : Bool) : (promoteUser st pr em f).state.nextSid = st.nextSid := by
  unfold promoteUser adminGate
  split <;> first | rfl | (split <;> first | rfl | (split <;> rfl))

theorem demoteUser_state_sessions (st : SysState) (pr : Option Nat) (em : String)
    (f : Bool) : (demoteUser st pr em f).state.sessions = st.sessions := by
  unfold demoteUser adminGate
  split <;> first | rfl | (split <;> first | rfl | (split <;> rfl))

theorem demoteUser_state_nextSid (st : SysState) (pr : Option Nat) (em : String)
    (f : Bool) : (demoteUser st pr em f).state.nextSid = st.nextSid := by
  unfold demoteUser adminGate
  split <;> first | rfl | (split <;> first | rfl | (split <;> rfl))

theorem retired_signupSubmit (ext : Ext) (st : SysState) (pr : Option Nat)
    (n e p : Option String) (f : Bool) (sid : Nat) (h : retired st sid) :
    retired (signupSubmit ext st pr n e p f).state sid := by
  unfold signupSubmit
  split
  · exact h
  · split
    · exact h
    · split
      · exact h
      · exact retired_establishSession _ _ _ _ h

theorem retired_loginSubmit (ext : Ext) (st : SysState) (pr : Option Nat)
    (e p : Option String) (sid : Nat) (h : retired st sid) :
    retired (loginSubmit ext st pr e p).state sid := by
  unfold loginSubmit
  split
  · exact h
  · split
    · exact h
    · split
      · exact retired_establishSession _ _ _ _ h
      · exact h

theorem retired_logoutGet (st : SysState) (pr : Option Nat) (sid : Nat)
    (h : retired st sid) : retired (logoutGet st pr).state sid := by
  unfold logoutGet
  cases pr with
  | none => exact h
  | some sid' => exact ⟨getSession_removeSession_of_none _ _ _ h.1, h.2⟩

theorem retired_step (ext : Ext) (st : SysState) (e : Event) (sid : Nat)
    (h : retired st sid) : retired (step ext st e).state sid := by
  cases e with
  | home pr => exact h
  | signupPage pr => exact h
  | loginPage pr => exact h
  | signup pr n em pw f => exact retired_signupSubmit ext st pr n em pw f sid h
  | login pr em pw => exact retired_loginSubmit ext st pr em pw sid h
  | members pr =>
    show retired (membersGet st pr).state sid
    rw [membersGet_state]; exact h
  | logout pr => exact retired_logoutGet st pr sid h
  | adminList pr =>
    show retired (adminGet st pr).state sid
    rw [adminGet_state]; exact h
  | promote pr em f =>
    show retired (promoteUser st pr em f).state sid
    exact retired_of_eq st _ sid (promoteUser_state_sessions st pr em f)
      (promoteUser_state_nextSid st pr em f) h
  | demote pr em f =>
    show retired (demoteUser st pr em f).state sid
    exact retired_of_eq st _ sid (demoteUser_state_sessions st pr em f)
      (demoteUser_state_nextSid st pr em f) h
  | other pr => exact h

theorem retired_run (ext : Ext) (st : SysState) (es : List Event) (sid : Nat)
    (h : retired st sid) : retired (run ext st es) sid := by
  induction es generalizing st with
  | nil => exact h
  | cons e t ih => exact ih _ (retired_step ext st e sid h)

/-! ### User-collection lemmas -/

theorem updateOne_roundtrip (users : List User) (email : String) (u : User)
    (hf : findOne users email = some u) (hu : u.admin = false) :
    updateOneSetAdmin (updateOneSetAdmin users email true) email false = users := by
  induction users with
  | nil => simp [findOne] at hf
  | cons a t ih =>
    obtain ⟨an, ae, ap, aa⟩ := a
    by_cases ha : ae = email
    · have hau : u = (⟨an, ae, ap, aa⟩ : User) := by
        have hh : findOne ((⟨an, ae, ap, aa⟩ : User) :: t) email = some ⟨an, ae, ap, aa⟩ := by
          simp [findOne, List.find?_cons, ha]
        rw [hh] at hf
        exact (Option.some.inj hf).symm
      have haa : aa = false := by rw [hau] at hu; exact hu
      subst haa
      simp [updateOneSetAdmin, ha]
    · have hft : findOne t email = some u := by
        simpa [findOne, List.find?_cons, ha] using hf
      simp [updateOneSetAdmin, ha, ih hft]

theorem filter_email_eq_nil (users : List User) (e : String)
    (hf : findOne users e = none) :
    users.filter (fun u => u.email = e) = [] := by
  rw [List.filter_eq_nil_iff]
  intro u hu
  have := List.find?_eq_none.1 hf u hu
  simpa using this

/-! ### Concrete fixtures used by witness theorems -/

/-- A concrete instantiation of the external collaborators: hashing prepends
a tag, comparison inverts it, and an email is any string containing `@`. -/
def extW : Ext where
  bcryptHash := fun p => "h:" ++ p
  bcryptCompare := fun p h => h = "h:" ++ p
  emailOk := fun e => e.data.contains '@'

/-- A concrete non-admin user record. -/
def aliceU : User :=
  { name := "Alice", email := "a@x.com", passwordHash := "h:pw123", admin := false }

/-- A state with one registered user and no sessions. -/
def stW : SysState := { users := [aliceU], sessions := [], nextSid := 0 }

/-- A state with one registered user and one open admin session. -/
def stAdminW : SysState :=
  { users := [aliceU],
    sessions := [(0, { name := "Bob", email := "b@x.com", admin := true })],
    nextSid := 1 }

/-- A state with one registered user and one open non-admin session. -/
def stUserSessW : SysState :=
  { users := [aliceU],
    sessions := [(0, { name := "Alice", email := "a@x.com", admin := false })],
    nextSid := 1 }

/-! ### Claim theorems -/

/-- Claim C1: for every (email, password) pair submitted to `POST
/loginSubmit` that passes schema validation, login succeeds (session payload
set from the stored user record and redirect to `/members`) if and only if a
user record with that email exists in the user directory and bcrypt
verification of the submitted password against that record's stored hash
returns true. -/
theorem claim1_login_iff (ext : Ext) (st : SysState) (presented : Option Nat)
    (email password : Option String) (e p : String)
    (hv : validateLogin ext email password = .ok (e, p)) :
    (((loginSubmit ext st presented email password).response = .redirect "/members") ↔
      ∃ u, findOne st.users e = some u ∧ ext.bcryptCompare p u.passwordHash = true) ∧
    (∀ u, findOne st.users e = some u → ext.bcryptCompare p u.passwordHash = true →
      loginSubmit ext st presented email password =
        ⟨establishSession st presented (mkPayload u.name u.email (some u.admin)),
          .redirect "/members", false⟩) := by
  cases hfo : findOne st.users e with
  | none =>
    have hval : loginSubmit ext st presented email password =
        ⟨st, .render "loginSubmit" (some "Couldn't find user with that email.") 200, false⟩ := by
      simp [loginSubmit, hv, hfo]
    rw [hval]
    constructor
    · constructor
      · intro hr; exact absurd hr (by simp)
      · rintro ⟨u, hu, -⟩; exact absurd hu (by simp)
    · intro u hu; exact absurd hu (by simp)
  | some u =>
    cases hc : ext.bcryptCompare p u.passwordHash with
    | false =>
      have hval : loginSubmit ext st presented email password =
          ⟨st, .render "loginSubmit" (some "Incorrect password.") 200, false⟩ := by
        simp [loginSubmit, hv, hfo, hc]
      rw [hval]
      constructor
      · constructor
        · intro hr; exact absurd hr (by simp)
        · rintro ⟨u', hu', hc'⟩
          obtain rfl := Option.some.inj hu'
          simp [hc'] at hc
      · intro u' hu' hc'
        obtain rfl := Option.some.inj hu'
        simp [hc'] at hc
    | true =>
      have hval : loginSubmit ext st presented email password =
          ⟨establishSession st presented (mkPayload u.name u.email (some u.admin)),
            .redirect "/members", false⟩ := by
        simp [loginSubmit, hv, hfo, hc]
      rw [hval]
      constructor
      · constructor
        · intro _; exact ⟨u, rfl, hc⟩
        · intro _; rfl
      · intro u' hu' _
        obtain rfl := Option.some.inj hu'
        rfl

theorem claim1_witness :
    validateLogin extW (some "a@x.com") (some "pw123") = .ok ("a@x.com", "pw123") ∧
    ((((loginSubmit extW stW none (some "a@x.com") (some "pw123")).response =
        .redirect "/members") ↔
      ∃ u, findOne stW.users "a@x.com" = some u ∧
        extW.bcryptCompare "pw123" u.passwordHash = true) ∧
     (∀ u, findOne stW.users "a@x.com" = some u →
        extW.bcryptCompare "pw123" u.passwordHash = true →
        loginSubmit extW stW none (some "a@x.com") (some "pw123") =
          ⟨establishSession stW none (mkPayload u.name u.email (some u.admin)),
            .redirect "/members", false⟩)) :=
  ⟨rfl, claim1_login_iff extW stW none (some "a@x.com") (some "pw123") "a@x.com" "pw123" rfl⟩

/-- Claim C2: for every signup submission with a valid name, a valid email
not already present in the user directory, and a valid password, the handler
hashes the password, inserts exactly one user record with that email and
`admin = false`, establishes a session whose payload copies the name and
email with `admin = false`, and redirects to `/members`. -/
theorem claim2_signup_fresh (ext : Ext) (st : SysState) (presented : Option Nat)
    (name email password : Option String) (n e p : String)
    (hv : validateSignup ext name email password = .ok (n, e, p))
    (hf : findOne st.users e = none) :
    (signupSubmit ext st presented name email password false).response =
      .redirect "/members" ∧
    (signupSubmit ext st presented name email password false).state.users =
      st.users ++ [{ name := n, email := e, passwordHash := ext.bcryptHash p, admin := false }] ∧
    ((signupSubmit ext st presented name email password false).state.users.filter
      (fun u => u.email = e)).length = 1 ∧
    ∃ sid, getSession
        (signupSubmit ext st presented name email password false).state.sessions sid =
      some { name := n, email := e, admin := false } := by
  have hval : signupSubmit ext st presented name email password false =
      ⟨establishSession
          { st with users := st.users ++
              [{ name := n, email := e, passwordHash := ext.bcryptHash p, admin := false }] }
          presented { name := n, email := e, admin := false },
        .redirect "/members", false⟩ := by
    simp [signupSubmit, hv, hf, mkPayload]
  rw [hval]
  refine ⟨rfl, ?_, ?_, ?_⟩
  · rw [establishSession_users]
  · rw [establishSession_users]
    show ((st.users ++ _).filter _).length = 1
    rw [List.filter_append, filter_email_eq_nil st.users e hf]
    simp
  · exact establishSession_exists _ _ _

theorem claim2_witness :
    validateSignup extW (some "Bob1") (some "c@x.com") (some "pw77") =
      .ok ("Bob1", "c@x.com", "pw77") ∧
    findOne stW.users "c@x.com" = none ∧
    ((signupSubmit extW stW none (some "Bob1") (some "c@x.com") (some "pw77") false).response =
      .redirect "/members" ∧
    (signupSubmit extW stW none (some "Bob1") (some "c@x.com") (some "pw77") false).state.users =
      stW.users ++
        [{ name := "Bob1", email := "c@x.com", passwordHash := extW.bcryptHash "pw77",
           admin := false }] ∧
    ((signupSubmit extW stW none (some "Bob1") (some "c@x.com") (some "pw77")
        false).state.users.filter (fun u => u.email = "c@x.com")).length = 1 ∧
    ∃ sid, getSession
        (signupSubmit extW stW none (some "Bob1") (some "c@x.com") (some "pw77")
          false).state.sessions sid =
      some { name := "Bob1", email := "c@x.com", admin := false }) :=
  ⟨rfl, rfl,
    claim2_signup_fresh extW stW none (some "Bob1") (some "c@x.com") (some "pw77")
      "Bob1" "c@x.com" "pw77" rfl rfl⟩

/-- Claim C3: for every request to `GET /admin`, `POST
/admin/promoteUser/:email`, or `POST /admin/demoteUser/:email` carrying a
session whose payload does not have `admin = true`, the route handler is
never invoked: the response is the dedicated forbidden page with status 403
and the state — in particular every user record's admin flag — is unchanged. -/
theorem claim3_admin_forbidden (st : SysState) (presented : Option Nat) (pl : Payload)
    (hs : reqUser st presented = some pl) (ha : pl.admin = false) :
    adminGet st presented = ⟨st, .render "403" none 403, false⟩ ∧
    ∀ email f,
      promoteUser st presented email f = ⟨st, .render "403" none 403, false⟩ ∧
      demoteUser st presented email f = ⟨st, .render "403" none 403, false⟩ := by
  refine ⟨?_, fun email f => ⟨?_, ?_⟩⟩ <;>
    simp [adminGet, promoteUser, demoteUser, adminGate, hs, ha]

theorem claim3_witness :
    reqUser stUserSessW (some 0) = some { name := "Alice", email := "a@x.com", admin := false } ∧
    Payload.admin { name := "Alice", email := "a@x.com", admin := false } = false ∧
    (adminGet stUserSessW (some 0) = ⟨stUserSessW, .render "403" none 403, false⟩ ∧
    ∀ email f,
      promoteUser stUserSessW (some 0) email f = ⟨stUserSessW, .render "403" none 403, false⟩ ∧
      demoteUser stUserSessW (some 0) email f = ⟨stUserSessW, .render "403" none 403, false⟩) :=
  ⟨rfl, rfl,
    claim3_admin_forbidden stUserSessW (some 0)
      { name := "Alice", email := "a@x.com", admin := false } rfl rfl⟩

/-- Claim C4 counterexample: the two validated login-failure cases re-render
the form at status 200, but with different error texts — the unknown-email
case and the wrong-password case are distinguishable, refuting the claim
that the rendered error does not distinguish them. -/
theorem claim4_cx :
    (loginSubmit extW stW none (some "b@x.com") (some "pw123")).response =
      .render "loginSubmit" (some "Couldn't find user with that email.") 200 ∧
    (loginSubmit extW stW none (some "a@x.com") (some "wrong")).response =
      .render "loginSubmit" (some "Incorrect password.") 200 ∧
    some "Couldn't find user with that email." ≠ some "Incorrect password." :=
  ⟨rfl, rfl, by decide⟩

/-- Claim C4 (amended): every validated login attempt that fails — unknown
email or wrong password — re-renders the login form with an error message at
status 200 and leaves the state unchanged, but the rendered error text does
distinguish the two cases: the unknown-email case renders
`Couldn't find user with that email.` and the wrong-password case renders
`Incorrect password.`. -/
theorem claim4_amended (ext : Ext) (st : SysState) (presented : Option Nat)
    (email password : Option String) (e p : String)
    (hv : validateLogin ext email password = .ok (e, p)) :
    (findOne st.users e = none →
      loginSubmit ext st presented email password =
        ⟨st, .render "loginSubmit" (some "Couldn't find user with that email.") 200, false⟩) ∧
    (∀ u, findOne st.users e = some u → ext.bcryptCompare p u.passwordHash = false →
      loginSubmit ext st presented email password =
        ⟨st, .render "loginSubmit" (some "Incorrect password.") 200, false⟩) := by
  constructor
  · intro hf; simp [loginSubmit, hv, hf]
  · intro u hf hc; simp [loginSubmit, hv, hf, hc]

theorem claim4_witness :
    validateLogin extW (some "b@x.com") (some "pw123") = .ok ("b@x.com", "pw123") ∧
    findOne stW.users "b@x.com" = none ∧
    loginSubmit extW stW none (some "b@x.com") (some "pw123") =
      ⟨stW, .render "loginSubmit" (some "Couldn't find user with that email.") 200, false⟩ :=
  ⟨rfl, rfl,
    (claim4_amended extW stW none (some "b@x.com") (some "pw123") "b@x.com" "pw123" rfl).1 rfl⟩

/-- Claim C5: a session payload copies the user's name, email, and admin
flag at login time and is not live-linked to the user record: after a user
logs in, promoting or demoting stored records via the admin routes leaves
the session store — hence the admin flag of every open session — unchanged. -/
theorem claim5_session_snapshot (ext : Ext) (st : SysState) (presented : Option Nat)
    (email password : Option String) (e p : String) (u : User)
    (hv : validateLogin ext email password = .ok (e, p))
    (hf : findOne st.users e = some u)
    (hc : ext.bcryptCompare p u.passwordHash = true) :
    (∃ sid, getSession (loginSubmit ext st presented email password).state.sessions sid =
        some { name := u.name, email := u.email, admin := u.admin }) ∧
    ∀ st' presented' em f,
      (promoteUser st' presented' em f).state.sessions = st'.sessions ∧
      (demoteUser st' presented' em f).state.sessions = st'.sessions := by
  have hval : (loginSubmit ext st presented email password).state =
      establishSession st presented { name := u.name, email := u.email, admin := u.admin } := by
    simp [loginSubmit, hv, hf, hc, mkPayload]
  constructor
  · rw [hval]; exact establishSession_exists _ _ _
  · intro st' presented' em f
    exact ⟨promoteUser_state_sessions _ _ _ _, demoteUser_state_sessions _ _ _ _⟩

theorem claim5_witness :
    validateLogin extW (some "a@x.com") (some "pw123") = .ok ("a@x.com", "pw123") ∧
    findOne stW.users "a@x.com" = some aliceU ∧
    extW.bcryptCompare "pw123" aliceU.passwordHash = true ∧
    ((∃ sid, getSession
        (loginSubmit extW stW none (some "a@x.com") (some "pw123")).state.sessions sid =
        some { name := aliceU.name, email := aliceU.email, admin := aliceU.admin }) ∧
    ∀ st' presented' em f,
      (promoteUser st' presented' em f).state.sessions = st'.sessions ∧
      (demoteUser st' presented' em f).state.sessions = st'.sessions) :=
  ⟨rfl, rfl, rfl,
    claim5_session_snapshot extW stW none (some "a@x.com") (some "pw123")
      "a@x.com" "pw123" aliceU rfl rfl rfl⟩

/-- Claim C6: for every `POST /signupSubmit` or `POST /loginSubmit` request
whose body fails schema validation, the submission form is re-rendered with
the validation error at status 200 — not a 4xx — and the state is unchanged:
no user record is created and no session is established. -/
theorem claim6_validation_failure (ext : Ext) (st : SysState) (presented : Option Nat)
    (name email password : Option String) (f : Bool) :
    (∀ err, validateSignup ext name email password = .error err →
      signupSubmit ext st presented name email password f =
        ⟨st, .render "signupSubmit" (some err) 200, false⟩) ∧
    (∀ err, validateLogin ext email password = .error err →
      loginSubmit ext st presented email password =
        ⟨st, .render "loginSubmit" (some err) 200, false⟩) := by
  constructor
  · intro err hv; simp [signupSubmit, hv]
  · intro err hv; simp [loginSubmit, hv]

theorem claim6_witness :
    validateSignup extW none (some "a@x.com") (some "pw123") = .error "name is required" ∧
    signupSubmit extW stW none none (some "a@x.com") (some "pw123") false =
      ⟨stW, .render "signupSubmit" (some "name is required") 200, false⟩ :=
  ⟨rfl,
    (claim6_validation_failure extW stW none none (some "a@x.com") (some "pw123") false).1
      "name is required" rfl⟩

/-- Claim C7: for every email whose user record initially has
`admin = false`, promoting and then demoting that email through an admin
session returns the user collection to its original state, and each of the
two requests redirects back to `/admin`. -/
theorem claim7_roundtrip (st : SysState) (presented : Option Nat) (pl : Payload)
    (email : String) (u : User)
    (hs : reqUser st presented = some pl) (ha : pl.admin = true)
    (hf : findOne st.users email = some u) (hu : u.admin = false) :
    (promoteUser st presented email false).response = .redirect "/admin" ∧
    (demoteUser (promoteUser st presented email false).state presented email
      false).response = .redirect "/admin" ∧
    (demoteUser (promoteUser st presented email false).state presented email
      false).state.users = st.users := by
  have h1 : promoteUser st presented email false =
      ⟨{ st with users := updateOneSetAdmin st.users email true }, .redirect "/admin", false⟩ := by
    simp [promoteUser, adminGate, hs, ha]
  have hs1 : reqUser { st with users := updateOneSetAdmin st.users email true } presented =
      some pl := hs
  have h2 : demoteUser { st with users := updateOneSetAdmin st.users email true }
      presented email false =
      ⟨{ st with users := updateOneSetAdmin (updateOneSetAdmin st.users email true) email false },
        .redirect "/admin", false⟩ := by
    simp [demoteUser, adminGate, hs1, ha]
  rw [h1]
  refine ⟨rfl, ?_, ?_⟩
  · show (demoteUser { st with users := updateOneSetAdmin st.users email true }
      presented email false).response = _
    rw [h2]
  · show (demoteUser { st with users := updateOneSetAdmin st.users email true }
      presented email false).state.users = _
    rw [h2]
    exact updateOne_roundtrip st.users email u hf hu

theorem claim7_witness :
    reqUser stAdminW (some 0) = some { name := "Bob", email := "b@x.com", admin := true } ∧
    Payload.admin { name := "Bob", email := "b@x.com", admin := true } = true ∧
    findOne stAdminW.users "a@x.com" = some aliceU ∧
    aliceU.admin = false ∧
    ((promoteUser stAdminW (some 0) "a@x.com" false).response = .redirect "/admin" ∧
    (demoteUser (promoteUser stAdminW (some 0) "a@x.com" false).state (some 0) "a@x.com"
      false).response = .redirect "/admin" ∧
    (demoteUser (promoteUser stAdminW (some 0) "a@x.com" false).state (some 0) "a@x.com"
      false).state.users = stAdminW.users) :=
  ⟨rfl, rfl, rfl, rfl,
    claim7_roundtrip stAdminW (some 0) { name := "Bob", email := "b@x.com", admin := true }
      "a@x.com" aliceU rfl rfl rfl rfl⟩

/-- Claim C8: after `GET /logout` destroys a session, no later request
presenting the same former session identifier is ever treated as
authenticated: after any further sequence of requests it is handled exactly
like an anonymous request — redirected away from `/members` (to `/`) and
from the admin routes (to `/login`). -/
theorem claim8_logout_forever (ext : Ext) (st : SysState) (sid : Nat) (pl : Payload)
    (es : List Event) (hw : wfSids st) (hs : getSession st.sessions sid = some pl) :
    (logoutGet st (some sid)).response = .redirect "/" ∧
    reqUser (run ext (logoutGet st (some sid)).state es) (some sid) = none ∧
    membersGet (run ext (logoutGet st (some sid)).state es) (some sid) =
      membersGet (run ext (logoutGet st (some sid)).state es) none ∧
    adminGet (run ext (logoutGet st (some sid)).state es) (some sid) =
      adminGet (run ext (logoutGet st (some sid)).state es) none ∧
    (∀ em f,
      promoteUser (run ext (logoutGet st (some sid)).state es) (some sid) em f =
        promoteUser (run ext (logoutGet st (some sid)).state es) none em f ∧
      demoteUser (run ext (logoutGet st (some sid)).state es) (some sid) em f =
        demoteUser (run ext (logoutGet st (some sid)).state es) none em f) ∧
    (membersGet (run ext (logoutGet st (some sid)).state es) (some sid)).response =
      .redirect "/" ∧
    (adminGet (run ext (logoutGet st (some sid)).state es) (some sid)).response =
      .redirect "/login" := by
  have hlt : sid < st.nextSid := getSession_some_lt st sid pl hw hs
  have hret1 : retired (logoutGet st (some sid)).state sid :=
    ⟨getSession_removeSession_self _ _, hlt⟩
  have hret : retired (run ext (logoutGet st (some sid)).state es) sid :=
    retired_run ext _ es sid hret1
  have hg : getSession (run ext (logoutGet st (some sid)).state es).sessions sid = none :=
    hret.1
  refine ⟨rfl, hg, ?_, ?_, ?_, ?_, ?_⟩
  · simp [membersGet, reqUser, hg]
  · simp [adminGet, adminGate, reqUser, hg]
  · intro em f
    constructor <;> simp [promoteUser, demoteUser, adminGate, reqUser, hg]
  · simp [membersGet, reqUser, hg]
  · simp [adminGet, adminGate, reqUser, hg]

theorem claim8_witness :
    wfSids stAdminW ∧
    getSession stAdminW.sessions 0 = some { name := "Bob", email := "b@x.com", admin := true } ∧
    ((logoutGet stAdminW (some 0)).response = .redirect "/" ∧
    reqUser (run extW (logoutGet stAdminW (some 0)).state
      [Event.login none (some "a@x.com") (some "pw123")]) (some 0) = none ∧
    membersGet (run extW (logoutGet stAdminW (some 0)).state
        [Event.login none (some "a@x.com") (some "pw123")]) (some 0) =
      membersGet (run extW (logoutGet stAdminW (some 0)).state
        [Event.login none (some "a@x.com") (some "pw123")]) none ∧
    adminGet (run extW (logoutGet stAdminW (some 0)).state
        [Event.login none (some "a@x.com") (some "pw123")]) (some 0) =
      adminGet (run extW (logoutGet stAdminW (some 0)).state
        [Event.login none (some "a@x.com") (some "pw123")]) none ∧
    (∀ em f,
      promoteUser (run extW (logoutGet stAdminW (some 0)).state
          [Event.login none (some "a@x.com") (some "pw123")]) (some 0) em f =
        promoteUser (run extW (logoutGet stAdminW (some 0)).state
          [Event.login none (some "a@x.com") (some "pw123")]) none em f ∧
      demoteUser (run extW (logoutGet stAdminW (some 0)).state
          [Event.login none (some "a@x.com") (some "pw123")]) (some 0) em f =
        demoteUser (run extW (logoutGet stAdminW (some 0)).state
          [Event.login none (some "a@x.com") (some "pw123")]) none em f) ∧
    (membersGet (run extW (logoutGet stAdminW (some 0)).state
        [Event.login none (some "a@x.com") (some "pw123")]) (some 0)).response =
      .redirect "/" ∧
    (adminGet (run extW (logoutGet stAdminW (some 0)).state
        [Event.login none (some "a@x.com") (some "pw123")]) (some 0)).response =
      .redirect "/login") :=
  ⟨by unfold wfSids; decide, rfl,
    claim8_logout_forever extW stAdminW 0 { name := "Bob", email := "b@x.com", admin := true }
      [Event.login none (some "a@x.com") (some "pw123")] (by unfold wfSids; decide) rfl⟩

/-- Claim C9 counterexample: a persistence failure of the `updateOne` call
in `POST /admin/promoteUser/:email` does not produce a 500 server error and
logs nothing — the handler redirects to `/admin` regardless, because the
update promise is neither awaited nor given a catch handler. -/
theorem claim9_cx :
    (promoteUser stAdminW (some 0) "a@x.com" true).response = .redirect "/admin" ∧
    (promoteUser stAdminW (some 0) "a@x.com" true).logged = false ∧
    (promoteUser stAdminW (some 0) "a@x.com" true).response ≠
      .send "Internal server error." 500 :=
  ⟨rfl, rfl, by decide⟩

/-- Claim C9 (amended): a persistence failure of the signup `insertOne` is
answered with the generic 500 response `Internal server error.` carrying no
failure detail and is logged server-side; persistence failures of the admin
`updateOne` calls are not surfaced at all — the client still receives the
redirect to `/admin` and nothing is logged. -/
theorem claim9_amended (ext : Ext) (st : SysState) (presented : Option Nat)
    (name email password : Option String) (n e p : String)
    (hv : validateSignup ext name email password = .ok (n, e, p))
    (hf : findOne st.users e = none) :
    signupSubmit ext st presented name email password true =
      ⟨st, .send "Internal server error." 500, true⟩ ∧
    ∀ st' presented' pl em, reqUser st' presented' = some pl → pl.admin = true →
      promoteUser st' presented' em true = ⟨st', .redirect "/admin", false⟩ ∧
      demoteUser st' presented' em true = ⟨st', .redirect "/admin", false⟩ := by
  constructor
  · simp [signupSubmit, hv, hf]
  · intro st' presented' pl em hs ha
    constructor <;> simp [promoteUser, demoteUser, adminGate, hs, ha]

theorem claim9_witness :
    validateSignup extW (some "Bob1") (some "c@x.com") (some "pw77") =
      .ok ("Bob1", "c@x.com", "pw77") ∧
    findOne stW.users "c@x.com" = none ∧
    (signupSubmit extW stW none (some "Bob1") (some "c@x.com") (some "pw77") true =
      ⟨stW, .send "Internal server error." 500, true⟩ ∧
    ∀ st' presented' pl em, reqUser st' presented' = some pl → pl.admin = true →
      promoteUser st' presented' em true = ⟨st', .redirect "/admin", false⟩ ∧
      demoteUser st' presented' em true = ⟨st', .redirect "/admin", false⟩) :=
  ⟨rfl, rfl,
    claim9_amended extW stW none (some "Bob1") (some "c@x.com") (some "pw77")
      "Bob1" "c@x.com" "pw77" rfl rfl⟩

/-- Claim C10: for every request to an admin-only route with no session
payload at all, the response is a redirect to `/login` — not the 403
forbidden page used for authenticated non-admins, and not the redirect to
`/` used by the authenticated-only `/members` route. -/
theorem claim10_anonymous_admin (st : SysState) (presented : Option Nat)
    (h : reqUser st presented = none) :
    (adminGet st presented).response = .redirect "/login" ∧
    (∀ em f, (promoteUser st presented em f).response = .redirect "/login" ∧
             (demoteUser st presented em f).response = .redirect "/login") ∧
    (membersGet st presented).response = .redirect "/" ∧
    (Response.redirect "/login" ≠ .render "403" none 403) ∧
    (Response.redirect "/login" ≠ .redirect "/") := by
  refine ⟨?_, fun em f => ⟨?_, ?_⟩, ?_, by decide, by decide⟩ <;>
    simp [adminGet, promoteUser, demoteUser, membersGet, adminGate, h]

theorem claim10_witness :
    reqUser stW none = none ∧
    ((adminGet stW none).response = .redirect "/login" ∧
    (∀ em f, (promoteUser stW none em f).response = .redirect "/login" ∧
             (demoteUser stW none em f).response = .redirect "/login") ∧
    (membersGet stW none).response = .redirect "/" ∧
    (Response.redirect "/login" ≠ .render "403" none 403) ∧
    (Response.redirect "/login" ≠ .redirect "/")) :=
  ⟨rfl, claim10_anonymous_admin stW none rfl⟩

end App
